import Mathlib

/-!
Verification development for the multichat context & preference engine core.

The Python sources are embedded shallowly:
* dicts that are used as ordered string-keyed maps become association lists
  (`List (String × β)`) together with the helpers `alook` / `aset` / `aincr`
  / `aappend`, which reproduce Python's insertion-order update semantics
  (updating an existing key keeps its position, a new key is appended);
* numbers become `ℚ` (scores, confidences) or `Int` (timestamps in seconds);
* raising becomes `Except PyErr`;
* `datetime.utcnow()` becomes an explicit `now : Int` parameter;
* `await` on the service helpers is erased (the embedded call is the call).

Each section names the source file it embeds.
-/

namespace Multichat

/-- Python exception classes that the embedded code can raise
(`validationError` is pydantic's `ValidationError`, raised at model
construction when a field validator rejects its value). -/
inductive PyErr where
  | valueError
  | typeError
  | validationError
  | connectionError
  | timeoutError
  | runtimeError
deriving DecidableEq

/-- `l[-n:]` in Python: the suffix of the last `n` elements (all of `l` when
`l.length ≤ n`). -/
def lastN (n : Nat) (l : List α) : List α := l.drop (l.length - n)

/-! ### Association-list embedding of Python dicts -/

/-- `d.get(k)`: the binding of `k`, if any. -/
def alook : List (String × β) → String → Option β
  | [], _ => none
  | p :: t, k => if p.1 = k then some p.2 else alook t k

/-- `d[k] = v`: overwrite in place when present, append otherwise (Python
dicts keep insertion order; dicts never hold a key twice, so the in-scope
maps — all built by these helpers — are duplicate-free). -/
def aset : List (String × β) → String → β → List (String × β)
  | [], k, v => [(k, v)]
  | p :: t, k, v => if p.1 = k then (k, v) :: t else p :: aset t k v

/-- `d[k] = d.get(k, 0) + 1`. -/
def aincr : List (String × Nat) → String → List (String × Nat)
  | [], k => [(k, 1)]
  | p :: t, k => if p.1 = k then (p.1, p.2 + 1) :: t else p :: aincr t k

/-- `d.setdefault(k, []).append(v)`. -/
def aappend : List (String × List γ) → String → γ → List (String × List γ)
  | [], k, v => [(k, [v])]
  | p :: t, k, v =>
    if p.1 = k then (p.1, p.2 ++ [v]) :: t else p :: aappend t k v

/-- `np.mean` on a list of rationals.  (On `[]` numpy yields NaN with a
warning; this embedding yields `0` there — no theorem below evaluates the
mean of an empty list except where the source's own guard makes that the
returned value.) -/
def pyMean (l : List ℚ) : ℚ := l.sum / l.length

/-! ## `ai-service/src/models/context.py` -/

def MAX_SHORT_TERM_MESSAGES : Nat := 50
def MAX_CONTEXT_AGE_HOURS : Nat := 24
def EMBEDDING_DIMENSION : Nat := 1536

/-- An embedding vector. -/
abbrev Vec := List ℚ

/-- A fully validated chat message (`timestamp` is the parsed
`datetime.fromisoformat` value, in epoch seconds). -/
structure Message where
  message_id : String
  sender_id : String
  content : String
  timestamp : Int
deriving DecidableEq

/-- An inbound message payload before validation: any of the required
fields may be missing. -/
structure RawMessage where
  message_id : Option String
  sender_id : Option String
  content : Option String
  timestamp : Option Int
deriving DecidableEq

/-- All four required fields are present. -/
def RawMessage.valid (m : RawMessage) : Bool :=
  m.message_id.isSome && m.sender_id.isSome && m.content.isSome &&
    m.timestamp.isSome

/-- The validated view of a raw message (meaningful when `m.valid`). -/
def RawMessage.toMessage (m : RawMessage) : Message :=
  ⟨m.message_id.getD "", m.sender_id.getD "", m.content.getD "",
    m.timestamp.getD 0⟩

/-- The `group_dynamics` accumulator dict. -/
structure GroupDynamics where
  participation_metrics : List (String × Nat)
  response_times : List (String × List Int)
  interaction_pairs : List (String × Nat)
  topic_flow : List String
deriving DecidableEq

/-- `Context`: per-conversation bounded memory, embeddings and dynamics. -/
structure Context where
  chat_id : String
  short_term_memory : List Message
  embeddings : List (String × Vec)
  group_dynamics : GroupDynamics
  last_updated : Int
deriving DecidableEq

/-- `Context.__init__`. -/
def Context.init (chat_id : String) (now : Int) : Context :=
  ⟨chat_id, [], [], ⟨[], [], [], []⟩, now⟩

/-- `Context.add_message`: validate the required fields, append with FIFO
eviction at 50, then update participation / response-time / pair metrics
(the previous message is read from the post-eviction memory, as
`short_term_memory[-2]` does in the source). -/
def Context.add_message (ctx : Context) (msg : RawMessage) (now : Int) :
    Except PyErr Context :=
  match msg.message_id, msg.sender_id, msg.content, msg.timestamp with
  | some mid, some sid, some content, some ts =>
    let m : Message := ⟨mid, sid, content, ts⟩
    let mem0 := ctx.short_term_memory ++ [m]
    let mem := if mem0.length > MAX_SHORT_TERM_MESSAGES then mem0.drop 1
               else mem0
    let gd0 := ctx.group_dynamics
    let gd1 := { gd0 with
      participation_metrics := aincr gd0.participation_metrics sid }
    let gd2 :=
      if mem.length > 1 then
        match mem.dropLast.getLast? with
        | some prev =>
          { gd1 with
            response_times := aappend gd1.response_times sid
              (ts - prev.timestamp),
            interaction_pairs := aincr gd1.interaction_pairs
              (prev.sender_id ++ "-" ++ sid) }
        | none => gd1
      else gd1
    .ok { ctx with
      short_term_memory := mem,
      group_dynamics := gd2,
      last_updated := now }
  | _, _, _, _ => .error .valueError

/-- `Context.update_embeddings`: dimension check, store, then prune every
embedding whose message id is no longer in short-term memory. -/
def Context.update_embeddings (ctx : Context) (message_id : String)
    (embedding : Vec) (now : Int) : Except PyErr Context :=
  if embedding.length ≠ EMBEDDING_DIMENSION then .error .valueError
  else
    let em := aset ctx.embeddings message_id embedding
    let ids := ctx.short_term_memory.map (·.message_id)
    .ok { ctx with
      embeddings := em.filter (fun p => ids.contains p.1),
      last_updated := now }

/-- Adding a list of messages one by one (`add_message` in a loop). -/
def Context.addAll (ctx : Context) (msgs : List RawMessage) (now : Int) :
    Except PyErr Context :=
  msgs.foldlM (fun c m => c.add_message m now) ctx

/-! ## `ai-service/src/context/vector_store.py` and
`ai-service/src/context/context_manager.py` -/

def MAX_RETRIES : Nat := 3
def SIMILARITY_THRESHOLD : ℚ := 7/10
def MAX_RELEVANT_CONTEXTS : Nat := 5

/-- A `(message_id, chat_id, embedding)` row of the Milvus collection. -/
structure StoredVec where
  message_id : String
  chat_id : String
  vec : Vec
deriving DecidableEq

/-- Inner-product similarity (`METRIC_TYPE = "IP"`). -/
def dotQ (a b : Vec) : ℚ := (List.zipWith (· * ·) a b).sum

/-- Best-score-first ordering on `(id, score)` hits. -/
def hitGE (a b : String × ℚ) : Prop := b.2 ≤ a.2

instance : DecidableRel hitGE := fun a b => inferInstanceAs (Decidable (b.2 ≤ a.2))

instance : IsTotal (String × ℚ) hitGE := ⟨fun a b => by unfold hitGE; exact le_total b.2 a.2⟩

instance : IsTrans (String × ℚ) hitGE := ⟨fun _ _ _ h h' => by unfold hitGE at *; exact le_trans h' h⟩

/-- Modelled from the spec: §4.2 VectorIndex contract.  The Milvus engine is
an external collaborator; per the contract its `search` returns the stored
rows of the given partition key scored against the query, best score first
with ties broken by insertion order, truncated to `limit`.
(`List.insertionSort` is a stable sort, giving exactly that tie-break.) -/
def milvusSearch (stored : List StoredVec) (query : Vec) (chat_id : String)
    (limit : Nat) : List (String × ℚ) :=
  (List.insertionSort hitGE
    ((stored.filter (fun s => s.chat_id == chat_id)).map
      (fun s => (s.message_id, dotQ query s.vec)))).take limit

/-- `VectorStore.search_similar`: dimension check (a failure is caught and
turned into `[]` by the source's blanket `except`), then the engine search,
then the `score >= score_threshold` filter, order preserved. -/
def search_similar (stored : List StoredVec) (query : Vec) (chat_id : String)
    (limit : Nat) (score_threshold : ℚ) : List (String × ℚ) :=
  if query.length ≠ EMBEDDING_DIMENSION then []
  else (milvusSearch stored query chat_id limit).filter
    (fun h => score_threshold ≤ h.2)

/-- The context manager's `_active_contexts` map. -/
structure ManagerState where
  active_contexts : List (String × Context)
deriving DecidableEq

/-- `ContextManager._get_or_create_context`. -/
def getOrCreate (st : ManagerState) (chat_id : String) (now : Int) :
    Context × ManagerState :=
  match alook st.active_contexts chat_id with
  | some c => (c, st)
  | none =>
    let c := Context.init chat_id now
    (c, ⟨st.active_contexts ++ [(chat_id, c)]⟩)

/-- Manager state plus the external vector-store writes issued so far. -/
structure World where
  mgr : ManagerState
  store_writes : List (String × String × Vec)
deriving DecidableEq

/-- `options` of `get_relevant_context`. -/
structure SearchOptions where
  limit : Option Nat
  threshold : Option ℚ

/-- One attempt of `ContextManager.add_message_to_context` (the body inside
the tenacity decorator).  Python mutates the context object held in the map
in place, so each intermediate mutation is committed to the map before the
next fallible step; a raise at any point keeps what was committed. -/
def addMessageOnce (embed : String → Except PyErr Vec) (w : World)
    (chat_id : String) (message : RawMessage) (now : Int) :
    World × Except PyErr Unit :=
  let (ctx, st1) := getOrCreate w.mgr chat_id now
  match ctx.add_message message now with
  | .error e => ({ w with mgr := st1 }, .error e)
  | .ok ctx1 =>
    let st2 : ManagerState := ⟨aset st1.active_contexts chat_id ctx1⟩
    -- `message['content']` / `message['message_id']` are present here:
    -- `add_message` just validated them.
    match embed (message.content.getD "") with
    | .error e => ({ w with mgr := st2 }, .error e)
    | .ok v =>
      let w2 : World := ⟨st2,
        w.store_writes ++ [(message.message_id.getD "", chat_id, v)]⟩
      match ctx1.update_embeddings (message.message_id.getD "") v now with
      | .error e => (w2, .error e)
      | .ok ctx2 =>
        ({ w2 with mgr := ⟨aset st2.active_contexts chat_id ctx2⟩ }, .ok ())

/-- The decorator's retry condition:
`retry_if_exception_type=(ConnectionError, TimeoutError)`. -/
def isTransient : PyErr → Bool
  | .connectionError => true
  | .timeoutError => true
  | _ => false

/-- tenacity `stop_after_attempt`: run the attempt, re-run (on the possibly
mutated state) only while the failure is transient and attempts remain.
Also counts the attempts made. -/
def retryCall (op : World → World × Except PyErr Unit) :
    Nat → World → World × Except PyErr Unit × Nat
  | 0, w => (w, .error .runtimeError, 0)
  | n + 1, w =>
    match op w with
    | (w', .ok a) => (w', .ok a, 1)
    | (w', .error e) =>
      if isTransient e && n != 0 then
        match retryCall op n w' with
        | (w'', r, k) => (w'', r, k + 1)
      else (w', .error e, 1)

/-- `ContextManager.add_message_to_context` with its retry decorator. -/
def addMessageToContext (embed : String → Except PyErr Vec) (w : World)
    (chat_id : String) (message : RawMessage) (now : Int) :
    World × Except PyErr Unit × Nat :=
  retryCall (fun w => addMessageOnce embed w chat_id message now) MAX_RETRIES w

/-- `ContextManager.get_relevant_context` (successful-embedding path, the
embedding provider given as a pure oracle): embed the query, search the
vector index restricted to the chat, then join each hit back to the first
matching message still in short-term memory, attaching the score. -/
def getRelevantContext (embed : String → Vec) (stored : List StoredVec)
    (st : ManagerState) (chat_id : String) (query : String)
    (options : SearchOptions) (now : Int) : List (Message × ℚ) :=
  let query_embedding := embed query
  let similar := search_similar stored query_embedding chat_id
    (options.limit.getD MAX_RELEVANT_CONTEXTS)
    (options.threshold.getD SIMILARITY_THRESHOLD)
  let ctx := (getOrCreate st chat_id now).1
  similar.filterMap (fun s =>
    (ctx.short_term_memory.find? (fun msg => msg.message_id == s.1)).map
      (fun msg => (msg, s.2)))

/-! ## `preference-engine/src/models/preference.py` -/

/-- The preference payload (`Dict` in the source): an opaque string-keyed
record. -/
abbrev PrefData := List (String × String)

/-- A history snapshot `(data, confidence_score, version)` (the wall-clock
`timestamp` is omitted: no claim mentions it). -/
structure PrefHistoryEntry where
  data : PrefData
  confidence_score : ℚ
  version : Nat
deriving DecidableEq

/-- `PreferenceModel` (the fields the claims exercise). -/
structure PreferenceModel where
  preference_data : PrefData
  history : List PrefHistoryEntry
  confidence_score : ℚ
  version : Nat
deriving DecidableEq

/-- A fresh model (`version=0`, `confidence_score=0.5`, empty history). -/
def PreferenceModel.init (d : PrefData) : PreferenceModel :=
  ⟨d, [], 1/2, 0⟩

/-- The pre-update snapshot `update_preference` appends to history. -/
def PreferenceModel.snap (m : PreferenceModel) : PrefHistoryEntry :=
  ⟨m.preference_data, m.confidence_score, m.version⟩

/-- `PreferenceModel.update_preference` with history limit `L`
(`MAX_HISTORY_LENGTH = settings.PREFERENCE_HISTORY_LIMIT`, default 100,
validated to be in 1..1000): snapshot the pre-update state, evict the
oldest entry when at capacity, append, replace data, bump version, clamp
and apply the new confidence when given. -/
def PreferenceModel.update_preference (L : Nat) (m : PreferenceModel)
    (new_data : PrefData) (confidence_score : Option ℚ) : PreferenceModel :=
  let entry := m.snap
  let h1 := if m.history.length ≥ L then m.history.drop 1 else m.history
  { preference_data := new_data,
    history := h1 ++ [entry],
    confidence_score :=
      match confidence_score with
      | some c => max 0 (min c 1)
      | none => m.confidence_score,
    version := m.version + 1 }

/-- `update_preference` applied to a list of `(new_data, confidence)`
updates in order. -/
def PreferenceModel.iterUpdates (L : Nat) (m0 : PreferenceModel)
    (us : List (PrefData × Option ℚ)) : PreferenceModel :=
  us.foldl (fun m u => m.update_preference L u.1 u.2) m0

/-- The pre-update snapshots of a run: entry `i` is the state just before
the `(i+1)`-th update. -/
def PreferenceModel.preSnaps (L : Nat) (m0 : PreferenceModel)
    (us : List (PrefData × Option ℚ)) : List PrefHistoryEntry :=
  (List.range us.length).map
    (fun i => (PreferenceModel.iterUpdates L m0 (us.take i)).snap)

/-- `PREFERENCE_TYPES` (preference.py): the vocabulary the
`preference_type` validator accepts.  Note it shares no member with
`SUPPORTED_PREFERENCE_TYPES` below. -/
def PREFERENCE_TYPES : List String :=
  ["chat", "ai_agent", "ui", "notification", "language", "accessibility",
   "privacy"]

/-- Constructing `PreferenceModel(user_id=..., preference_type=...)`: the
pydantic `validator('preference_type')` rejects any type outside
`PREFERENCE_TYPES`, raising a `ValidationError` before the instance
exists; otherwise the field defaults apply (empty data and history,
confidence 0.5, version 0). -/
def PreferenceModel.construct (preference_type : String) :
    Except PyErr PreferenceModel :=
  if preference_type ∈ PREFERENCE_TYPES then .ok (PreferenceModel.init [])
  else .error .validationError

/-! ## `preference-engine/src/models/user_profile.py` -/

def SUPPORTED_PREFERENCE_TYPES : List String :=
  ["content", "interaction", "time", "location"]

/-- `LEARNING_THRESHOLDS` (the entries the embedded code reads). -/
def MIN_SAMPLES : Nat := 5
def PATTERN_WEIGHT : ℚ := 3/10
def CONSISTENCY_WEIGHT : ℚ := 3/10

/-- One `interaction_history` record. -/
structure InteractionEntry where
  timestamp : Int
  data : PrefData
  confidence : ℚ
  context : PrefData
deriving DecidableEq

/-- A value of the `temporal_patterns` dict.  `__init__` leaves that dict
empty, and no in-source write to it ever completes: the only producer,
`_analyze_temporal_patterns`, is reached through
`analyze_learning_patterns` and `learn_preferences`, both of which raise
before storing (`analyze_learning_patterns` iterates the *dict* returned
by `get_preference_history`, so `entry["timestamp"]` indexes a `str`).
Had a write completed, the value would be the producer's nested
hour/weekday/ISO-week histograms, keyed by sub-pattern name with
bucket → count maps. -/
inductive TemporalVal where
  | histograms : List (String × List (Nat × Nat)) → TemporalVal
deriving DecidableEq

/-- One `learning_patterns` record (the keys `__init__` creates; pattern
analysis would add more, but it is never reached — see `TemporalVal`). -/
structure LearnPatterns where
  consistency_score : ℚ
  temporal_patterns : List (String × TemporalVal)
  preference_stability : ℚ
deriving DecidableEq

/-- One `pattern_metrics` record (`last_analysis` omitted: wall clock). -/
structure PatternMetrics where
  sample_count : Nat
  pattern_strength : ℚ
deriving DecidableEq

structure UserProfile where
  preferences : List (String × PrefData)
  learning_patterns : List (String × LearnPatterns)
  interaction_history : List (String × List InteractionEntry)
  confidence_scores : List (String × ℚ)
  pattern_metrics : List (String × PatternMetrics)
deriving DecidableEq

/-- `UserProfile.__init__`: every supported type starts with empty data,
zeroed patterns and `sample_count = 0`. -/
def UserProfile.init : UserProfile :=
  { preferences := SUPPORTED_PREFERENCE_TYPES.map (fun t => (t, [])),
    learning_patterns :=
      SUPPORTED_PREFERENCE_TYPES.map (fun t => (t, ⟨0, [], 0⟩)),
    interaction_history := SUPPORTED_PREFERENCE_TYPES.map (fun t => (t, [])),
    confidence_scores := SUPPORTED_PREFERENCE_TYPES.map (fun t => (t, 0)),
    pattern_metrics :=
      SUPPORTED_PREFERENCE_TYPES.map (fun t => (t, ⟨0, 0⟩)) }

/-- `UserProfile._calculate_pattern_consistency`: `0.5` with no history,
otherwise the fraction of the last 5 entries whose data equals the new
data. -/
def UserProfile.calc_pattern_consistency (p : UserProfile)
    (preference_type : String) (new_data : PrefData) : ℚ :=
  let h := (alook p.interaction_history preference_type).getD []
  if h = [] then 1/2
  else
    let recent := lastN 5 h
    ((recent.filter (fun e => e.data = new_data)).length : ℚ) / recent.length

/-- The status record `update_preference` returns. -/
structure UpdateOutcome where
  confidence_score : ℚ
  pattern_score : ℚ
deriving DecidableEq

/-- `UserProfile.update_preference`: reject unsupported types, then (the
first statement of the body, before any profile mutation) construct the
backing `PreferenceModel` for the type.  That constructor's validator
accepts only `PREFERENCE_TYPES`, which is disjoint from
`SUPPORTED_PREFERENCE_TYPES`, so it raises a pydantic `ValidationError`
for every type that passed the method's own check — the call can never
proceed.  Were construction ever to succeed, the next fallible step,
`await pref_model.update_preference(...)`, awaits the sync method's
`bool` and raises `TypeError`; the pattern-consistency, weighted
confidence (`confidence * 0.3 + pattern_score * 0.3`), interaction-record
append and learning-pattern writes below it are unreachable. -/
def UserProfile.update_preference (_p : UserProfile)
    (preference_type : String) (_preference_data : PrefData)
    (_confidence_score : ℚ) (_context_data : PrefData) (_now : Int) :
    Except PyErr (UserProfile × UpdateOutcome) :=
  if preference_type ∈ SUPPORTED_PREFERENCE_TYPES then
    match PreferenceModel.construct preference_type with
    | .error e => .error e
    | .ok _pref_model => .error .typeError
  else .error .valueError

/-! ## `preference-engine/src/services/learning_service.py` -/

def MIN_SAMPLES_REQUIRED : Nat := 5

structure Prediction where
  pattern_type : String
  confidence : ℚ
  predicted_value : Nat
deriving DecidableEq

structure PredResult where
  predictions : List Prediction
  confidence_score : ℚ
deriving DecidableEq

/-- A cached prediction entry (`version` is the model-version stamp). -/
structure PredCacheEntry where
  result : PredResult
  version : String
deriving DecidableEq

/-- The recompute path of `get_preference_predictions`.  The source builds
the profile it reads *inside the call* — `UserProfile(user_id=user_id)`,
a fresh profile — so `learning_patterns.get(preference_type, {})` yields
either `{}` (unsupported type: the falsy-dict early return, predictions
`[]`, confidence `0.0`) or the `__init__` record whose
`temporal_patterns` dict is empty, over which the prediction loop emits
nothing and the overall confidence is `0.0`.  Were a temporal-pattern
entry ever present it would hold a nested histogram dict (`TemporalVal`)
and the loop's `pattern[1] >= MIN_SAMPLES_REQUIRED` comparison of a
`dict` with an `int` would raise `TypeError`. -/
def recomputePredictions (preference_type : String) :
    Except PyErr (PredResult × Bool) :=
  let user_profile := UserProfile.init
  match alook user_profile.learning_patterns preference_type with
  | none => .ok (⟨[], 0⟩, false)
  | some lp =>
    match lp.temporal_patterns with
    | [] => .ok (⟨[], 0⟩, false)
    | _ :: _ => .error .typeError

/-- `get_preference_predictions`: cache-first (a hit requires a stored
entry whose version stamp matches the current model version), otherwise
the recompute path above.  The `Bool` records whether the cached entry
was returned. -/
def getPreferencePredictions (cached : Option PredCacheEntry)
    (model_version : String) (preference_type : String) :
    Except PyErr (PredResult × Bool) :=
  match cached with
  | some ce =>
    if ce.version = model_version then .ok (ce.result, true)
    else recomputePredictions preference_type
  | none => recomputePredictions preference_type

/-- A cache miss: no entry, or a stale model-version stamp. -/
def predCacheMiss (cached : Option PredCacheEntry) (model_version : String) :
    Prop :=
  ∀ ce, cached = some ce → ce.version ≠ model_version

/-! ## `preference-engine/src/services/recommendation_service.py` -/

def MIN_CONFIDENCE_SCORE : ℚ := 7/10
def MAX_RECOMMENDATIONS : Nat := 10
def SUPPORTED_RECOMMENDATION_TYPES : List String :=
  ["ai_agent", "chat_group", "content"]

/-- `SCORE_WEIGHTS`. -/
def WEIGHT_PREFERENCE : ℚ := 6/10
def WEIGHT_CONTEXT : ℚ := 3/10
def WEIGHT_DIVERSITY : ℚ := 1/10

/-- A feature dict on a preference or an item: string keys to numbers. -/
abbrev FeatureDict := List (String × ℚ)

/-- A recommendation item: its feature dicts plus the two special keys the
scorer reads (`valid_period.start` as an ISO datetime, kept in epoch
seconds, and `target_users`). -/
structure RecItem where
  features : List (String × FeatureDict)
  valid_period_start : Option Int
  target_users : Option (List String)
deriving DecidableEq

/-- `user_preferences`: feature dicts plus the `history` list of previous
recommendation items. -/
structure UserPrefs where
  features : List (String × FeatureDict)
  history : List RecItem
deriving DecidableEq

/-- `context_data` (`timestamp` as parsed epoch seconds). -/
structure CtxData where
  timestamp : Option Int
deriving DecidableEq

/-- `group_dynamics` as read by the scorer. -/
structure GroupDyn where
  active_users : Option (List String)
deriving DecidableEq

/-- `recommendation_item.keys()`, in dict insertion order with the feature
keys first. -/
def RecItem.keys (it : RecItem) : List String :=
  it.features.map (·.1) ++
    (match it.valid_period_start with | some _ => ["valid_period"] | none => []) ++
    (match it.target_users with | some _ => ["target_users"] | none => [])

/-- `_calculate_feature_match` through the per-key loop of the scorer:
`user_preferences.get(feature, {})` against `recommendation_item[feature]`.
An empty (or absent) dict on either side scores 0; mismatched vector
lengths raise inside `np.dot` and are caught to 0; the special non-dict
keys (`valid_period`, `target_users`) raise in `.values()` and are caught
to 0.  The genuinely numeric case defers to `cos`, the numpy kernel
`dot(u,v)/(|u||v|)` (irrational in general, so kept as a parameter). -/
def featureScore (cos : List ℚ → List ℚ → ℚ) (prefs : UserPrefs)
    (it : RecItem) (k : String) : ℚ :=
  match alook prefs.features k, alook it.features k with
  | some u, some v =>
    if u = [] ∨ v = [] then 0
    else if u.length ≠ v.length then 0
    else cos (u.map (·.2)) (v.map (·.2))
  | _, _ => 0

/-- The `relevance_scores` contribution of the time signal: a daily-decay
score when both the context timestamp and the item's valid-period start
are present. -/
def timeScores (context : CtxData) (it : RecItem) : List ℚ :=
  match context.timestamp, it.valid_period_start with
  | some t, some s => [1 / (1 + ((t - s).natAbs : ℚ) / 86400)]
  | _, _ => []

/-- The `relevance_scores` contribution of the group signal: the
target-user/active-user overlap ratio when the group has (truthy) active
users. -/
def groupScores (it : RecItem) (gd : GroupDyn) : List ℚ :=
  match gd.active_users with
  | some us =>
    if us = [] then []
    else [((((it.target_users.getD []).dedup.filter (· ∈ us)).length : ℚ)
      / us.length)]
  | none => []

/-- `_calculate_context_relevance`: mean of the signals present; `0.5`
when neither signal is present. -/
def contextRelevance (context : CtxData) (it : RecItem) (gd : GroupDyn) :
    ℚ :=
  if timeScores context it ++ groupScores it gd = [] then 1/2
  else pyMean (timeScores context it ++ groupScores it gd)

/-- Value-at-key equality between two items, as Python `==` compares the
dict entries that `item[k]` denotes. -/
def RecItem.valEq (a b : RecItem) (k : String) : Bool :=
  if k = "valid_period" then a.valid_period_start == b.valid_period_start
  else if k = "target_users" then a.target_users == b.target_users
  else alook a.features k == alook b.features k

/-- `_calculate_diversity_score`: `1.0` with no history, else
`1 − mean` over the last 10 historical items of the fraction of shared
keys holding equal values (items sharing no keys contribute nothing). -/
def diversityScore (it : RecItem) (history : List RecItem) : ℚ :=
  if history = [] then 1
  else
    let sims := (lastN 10 history).filterMap (fun h =>
      let common := (it.keys.dedup).filter (· ∈ h.keys)
      if common = [] then none
      else some (((common.filter (it.valEq h)).length : ℚ) / common.length))
    1 - (if sims = [] then 0 else pyMean sims)

/-- `calculate_recommendation_score`: `0.6·preference + 0.3·context +
0.1·diversity`, clamped to `[0,1]`.  The preference component is the mean
over the item's keys of the per-key feature match; the history fed to the
diversity bonus is `user_preferences.get('history', [])`. -/
def calculate_recommendation_score (cos : List ℚ → List ℚ → ℚ)
    (user_preferences : UserPrefs) (context_data : CtxData)
    (recommendation_item : RecItem) (group_dynamics : GroupDyn) : ℚ :=
  let preference_score :=
    pyMean (recommendation_item.keys.map
      (featureScore cos user_preferences recommendation_item))
  let context_score :=
    contextRelevance context_data recommendation_item group_dynamics
  let diversity_score :=
    diversityScore recommendation_item user_preferences.history
  max 0 (min 1
    (preference_score * WEIGHT_PREFERENCE +
     context_score * WEIGHT_CONTEXT +
     diversity_score * WEIGHT_DIVERSITY))

/-- The recommendation service's mutable state: the Redis cache keyed
`rec_{user}:{type}` and a count of how often the candidate-generation
path ran.  `_get_from_cache` and the per-type candidate generators are not
present in the source tree (only their call sites are). -/
structure RecServiceState where
  cache : List (String × List (String × ℚ))
  generation_calls : Nat
deriving DecidableEq

/-- `RecommendationService.get_recommendations`.  Modelled from the spec
for the two members missing from the source tree: `_get_from_cache`
returns the recommendations stored under the key when an unexpired entry
exists (§4.5/§6 Cache contract), and the type-specific candidate
generators plus their scoring are abstracted as the `scored` argument
(candidate, score).  Everything else — the type validation, the
cache-first branch, the `>= MIN_CONFIDENCE_SCORE` filter, the descending
sort, the `MAX_RECOMMENDATIONS` truncation and the write-back — is the
source's own logic. -/
def getRecommendations (st : RecServiceState) (user_id rec_type : String)
    (refresh_cache : Bool) (scored : List (String × ℚ)) :
    Except PyErr (List (String × ℚ)) × RecServiceState :=
  if rec_type ∈ SUPPORTED_RECOMMENDATION_TYPES then
    let cache_key := "rec_" ++ user_id ++ ":" ++ rec_type
    match (if refresh_cache then none else alook st.cache cache_key) with
    | some cached => (.ok cached, st)
    | none =>
      let recommendations :=
        (List.insertionSort hitGE
          (scored.filter (fun c => MIN_CONFIDENCE_SCORE ≤ c.2))).take
          MAX_RECOMMENDATIONS
      (.ok recommendations,
        ⟨aset st.cache cache_key recommendations, st.generation_calls + 1⟩)
  else (.error .valueError, st)

/-! ## Concrete inputs used by witnesses and counterexamples -/

/-- 51 valid messages for the bounded-memory witness. -/
def c1msgs : List RawMessage :=
  (List.range 51).map
    (fun i => ⟨some ("m" ++ toString i), some "u", some "hi", some (i : Int)⟩)

/-- A full-dimension zero embedding. -/
def zeroVec : Vec := List.replicate EMBEDDING_DIMENSION 0

/-- 50 further valid messages `m2 .. m51`. -/
def c9msgs : List RawMessage :=
  (List.range 50).map
    (fun i => ⟨some ("m" ++ toString (i + 2)), some "u", some "hi", some 0⟩)

/-- A run that embeds `m1` and then adds 50 more messages, so that the
51st message evicts `m1` from short-term memory with no intervening
`update_embeddings` call. -/
def c9run : Except PyErr Context := do
  let c0 := Context.init "c1" 0
  let c1 ← c0.add_message ⟨some "m1", some "u", some "hi", some 0⟩ 0
  let c2 ← c1.update_embeddings "m1" zeroVec 0
  c2.addAll c9msgs 0

/-- Does a context state violate the embedding-pruning subset claim? -/
def embKeysViolation (e : Except PyErr Context) : Bool :=
  match e with
  | .ok ctx =>
    (ctx.embeddings.map Prod.fst).any
      (fun k => !((ctx.short_term_memory.map Message.message_id).contains k))
      && decide (ctx.short_term_memory.length = MAX_SHORT_TERM_MESSAGES)
  | .error _ => false

/-- A small context holding one message and one stale embedding. -/
def c9wctx : Context :=
  ⟨"c", [⟨"mA", "u", "hi", 0⟩], [("gone", zeroVec)], ⟨[("u", 1)], [], [], []⟩, 0⟩

/-- What `c9wctx.update_embeddings "mA" zeroVec 5` produces: the stale
`"gone"` embedding is pruned and the new one kept. -/
def c9wctxAfter : Context :=
  ⟨"c", [⟨"mA", "u", "hi", 0⟩], [("mA", zeroVec)], ⟨[("u", 1)], [], [], []⟩, 5⟩

/-- Three concrete preference updates for the history witness. -/
def c2us : List (PrefData × Option ℚ) :=
  [([("theme", "dark")], some (2/10)),
   ([("theme", "light")], none),
   ([("theme", "dark")], some (9/10))]

/-- A message payload missing `sender_id`. -/
def c6msg : RawMessage := ⟨some "m9", none, some "hi", some 0⟩

/-- A small context already known to the manager. -/
def c6ctx : Context :=
  ⟨"c1", [⟨"m1", "a", "hi", 0⟩], [], ⟨[("a", 1)], [], [], []⟩, 0⟩

/-- A manager world holding `c6ctx` and no vector-store writes. -/
def c6world : World := ⟨⟨[("c1", c6ctx)]⟩, []⟩

/-- An embedding provider that always fails transiently (never reached in
the witness: validation rejects first). -/
def c6embed : String → Except PyErr Vec := fun _ => .error .connectionError

/-- A query embedding of the right dimension. -/
def c5qvec : Vec := 1 :: List.replicate 1535 0

/-- The single stored vector: inner product with `c5qvec` is `0.5`. -/
def c5svec : Vec := (1/2 : ℚ) :: List.replicate 1535 0

def c5embed : String → Vec := fun _ => c5qvec

def c5stored : List StoredVec := [⟨"m1", "c1", c5svec⟩]

/-- The conversation context for the retrieval scenario: `m1` is still in
short-term memory. -/
def c5ctx : Context :=
  ⟨"c1", [⟨"m1", "a", "hi", 0⟩], [("m1", c5svec)], ⟨[("a", 1)], [], [], []⟩, 0⟩

def c5mgr : ManagerState := ⟨[("c1", c5ctx)]⟩

/-- A recommendation item with one feature dict and no special keys. -/
def c4item : RecItem := ⟨[("category", [("x", 1)])], none, none⟩

/-- Empty user preferences (`user_preferences = {}`). -/
def c4prefs : UserPrefs := ⟨[], []⟩

/-- A stand-in numpy cosine kernel (never reached with empty prefs). -/
def c4cos : List ℚ → List ℚ → ℚ := fun _ _ => 0

/-! ## Theorems -/

theorem length_lastN (n : Nat) (l : List α) :
    (lastN n l).length = min n l.length := by
  simp only [lastN, List.length_drop]
  omega

theorem lastN_of_length_le {n : Nat} {l : List α} (h : l.length ≤ n) :
    lastN n l = l := by
  simp only [lastN, Nat.sub_eq_zero_of_le h, List.drop_zero]

theorem lastN_length_le (n : Nat) (l : List α) : (lastN n l).length ≤ n := by
  simp only [length_lastN]; omega

/-- Re-trimming after appending on the right: trimming the accumulator first
does not change the final suffix. -/
theorem lastN_lastN_append (b : Nat) (l r : List α) :
    lastN b (lastN b l ++ r) = lastN b (l ++ r) := by
  by_cases h : l.length ≤ b
  · rw [lastN_of_length_le h]
  · have hk : l.length - b ≤ l.length := Nat.sub_le _ _
    have hdrop : lastN b l ++ r = (l ++ r).drop (l.length - b) := by
      simp only [lastN]
      rw [List.drop_append_of_le_length hk]
    rw [hdrop]
    simp only [lastN, List.drop_drop, List.length_drop, List.length_append]
    congr 1
    omega

/-- Evicting the head exactly when the bound is exceeded yields the last-`b`
suffix, provided the list was within bound before the append. -/
theorem snoc_evict_eq_lastN (b : Nat) (l : List α) (x : α)
    (hl : l.length ≤ b) :
    (if (l ++ [x]).length > b then (l ++ [x]).drop 1 else l ++ [x]) =
      lastN b (l ++ [x]) := by
  by_cases h : (l ++ [x]).length > b
  · simp only [if_pos h, lastN]
    congr 1
    simp only [List.length_append, List.length_cons, List.length_nil] at h ⊢
    omega
  · simp only [if_neg h, lastN]
    simp only [List.length_append, List.length_cons, List.length_nil] at h ⊢
    have : l.length + 1 - b = 0 := by omega
    simp [this]

/-- Evicting the head before appending when the bound is already reached
(python `if len >= L: pop(0)` then `append`) also yields the last-`b` suffix,
for a positive bound and a within-bound starting list. -/
theorem evict_snoc_eq_lastN (b : Nat) (hb : 1 ≤ b) (l : List α) (x : α)
    (hl : l.length ≤ b) :
    (if l.length ≥ b then l.drop 1 else l) ++ [x] = lastN b (l ++ [x]) := by
  by_cases h : l.length ≥ b
  · have hlen : l.length = b := le_antisymm hl h
    simp only [if_pos h, lastN, List.length_append, List.length_cons,
      List.length_nil]
    have h1 : l.length + (0 + 1) - b = 1 := by omega
    rw [h1, List.drop_append_of_le_length (by omega)]
  · simp only [if_neg h, lastN, List.length_append, List.length_cons,
      List.length_nil]
    have : l.length + (0 + 1) - b = 0 := by omega
    simp [this]

theorem alook_aset_self (m : List (String × β)) (k : String) (v : β) :
    alook (aset m k v) k = some v := by
  induction m with
  | nil => simp [aset, alook]
  | cons p t ih =>
    by_cases hp : p.1 = k
    · simp [aset, alook, hp]
    · simp [aset, alook, hp, ih]

theorem alook_aset_ne (m : List (String × β)) {k k' : String} (v : β)
    (h : k ≠ k') : alook (aset m k v) k' = alook m k' := by
  induction m with
  | nil => simp [aset, alook, h]
  | cons p t ih =>
    by_cases hp : p.1 = k
    · simp [aset, alook, hp, h]
    · simp only [aset, if_neg hp, alook]
      by_cases hp' : p.1 = k'
      · simp [hp']
      · simp [hp', ih]

theorem RawMessage.valid_exists {m : RawMessage} (h : m.valid = true) :
    ∃ a b c d, m = ⟨some a, some b, some c, some d⟩ := by
  obtain ⟨mi, si, co, ts⟩ := m
  cases mi <;> cases si <;> cases co <;> cases ts <;>
    first
      | exact ⟨_, _, _, _, rfl⟩
      | simp_all [RawMessage.valid]

/-- A valid message is accepted, and the new short-term memory is the
last-50 suffix of the old memory with the message appended. -/
theorem Context.add_message_ok (ctx : Context) {m : RawMessage} (now : Int)
    (hm : m.valid = true)
    (hlen : ctx.short_term_memory.length ≤ MAX_SHORT_TERM_MESSAGES) :
    ∃ ctx', ctx.add_message m now = .ok ctx' ∧
      ctx'.short_term_memory =
        lastN MAX_SHORT_TERM_MESSAGES
          (ctx.short_term_memory ++ [m.toMessage]) ∧
      ctx'.embeddings = ctx.embeddings ∧ ctx'.chat_id = ctx.chat_id := by
  obtain ⟨a, b, c, d, rfl⟩ := RawMessage.valid_exists hm
  refine ⟨_, rfl, ?_, rfl, rfl⟩
  simpa [RawMessage.toMessage] using
    snoc_evict_eq_lastN MAX_SHORT_TERM_MESSAGES ctx.short_term_memory
      (⟨a, b, c, d⟩ : Message) hlen

/-- Folding `add_message` over valid messages succeeds and leaves exactly
the last-50 suffix of old memory followed by the new messages. -/
theorem Context.addAll_ok (now : Int) :
    ∀ (msgs : List RawMessage) (ctx : Context),
      (∀ x ∈ msgs, x.valid = true) →
      ctx.short_term_memory.length ≤ MAX_SHORT_TERM_MESSAGES →
      ∃ ctx', ctx.addAll msgs now = .ok ctx' ∧
        ctx'.short_term_memory =
          lastN MAX_SHORT_TERM_MESSAGES
            (ctx.short_term_memory ++ msgs.map RawMessage.toMessage) := by
  intro msgs
  induction msgs with
  | nil =>
    intro ctx _ hlen
    refine ⟨ctx, rfl, ?_⟩
    simp only [List.map_nil, List.append_nil]
    exact (lastN_of_length_le hlen).symm
  | cons m rest ih =>
    intro ctx hv hlen
    obtain ⟨ctx1, h1, hmem1, _, _⟩ :=
      ctx.add_message_ok now (hv m (by simp)) hlen
    have hlen1 : ctx1.short_term_memory.length ≤ MAX_SHORT_TERM_MESSAGES := by
      rw [hmem1]; exact lastN_length_le _ _
    obtain ⟨ctx', h', hmem'⟩ :=
      ih ctx1 (fun x hx => hv x (by simp [hx])) hlen1
    refine ⟨ctx', ?_, ?_⟩
    · simpa [Context.addAll, List.foldlM, h1] using h'
    · rw [hmem', hmem1, lastN_lastN_append]
      simp

end Multichat

namespace Multichat

/-- C1: adding any sequence of more than 50 valid messages to one
conversation through `Context.add_message` leaves `short_term_memory` with
exactly 50 entries — precisely the 50 most recently added messages, in
insertion order (FIFO eviction of the oldest). -/
theorem C1_bounded_memory (chat_id : String) (now : Int)
    (msgs : List RawMessage) (hv : ∀ x ∈ msgs, x.valid = true)
    (hN : msgs.length > 50) :
    ∃ ctx, (Context.init chat_id now).addAll msgs now = .ok ctx ∧
      ctx.short_term_memory =
        (msgs.map RawMessage.toMessage).drop (msgs.length - 50) ∧
      ctx.short_term_memory.length = 50 := by
  obtain ⟨ctx, hok, hmem⟩ :=
    Context.addAll_ok now msgs (Context.init chat_id now) hv
      (by simp [Context.init])
  refine ⟨ctx, hok, ?_, ?_⟩
  · rw [hmem]
    simp [Context.init, lastN, MAX_SHORT_TERM_MESSAGES]
  · rw [hmem, length_lastN]
    simp only [Context.init, List.nil_append, List.length_map,
      MAX_SHORT_TERM_MESSAGES]
    omega

/-- Witness for C1 at 51 concrete messages. -/
theorem C1_bounded_memory_witness :
    (∀ x ∈ c1msgs, x.valid = true) ∧ c1msgs.length > 50 ∧
      ∃ ctx, (Context.init "c1" 0).addAll c1msgs 0 = .ok ctx ∧
        ctx.short_term_memory =
          (c1msgs.map RawMessage.toMessage).drop (c1msgs.length - 50) ∧
        ctx.short_term_memory.length = 50 :=
  ⟨by decide, by decide, C1_bounded_memory "c1" 0 c1msgs (by decide) (by decide)⟩

end Multichat

namespace Multichat

/-- C9 counterexample: the claim "after any eviction the embedding keys are
a subset of the remaining message ids" is false at a concrete reachable
state.  `c9run` embeds `m1` and then adds 50 more messages; the final add
evicts `m1` (memory is at its 50-cap, starting at `m2`), yet the
embeddings map still holds key `m1`: `add_message` does not prune, only a
later `update_embeddings` call does. -/
theorem C9_counterexample : embKeysViolation c9run = true := by
  set_option maxRecDepth 100000 in decide

/-- C9 amended: the pruning happens on `update_embeddings`, not at
eviction time — after any successful `Context.update_embeddings` call the
embedding keys are a subset of the short-term-memory message ids. -/
theorem C9_pruned_after_update_embeddings (ctx : Context) (mid : String)
    (emb : Vec) (now : Int) (ctx' : Context)
    (h : ctx.update_embeddings mid emb now = .ok ctx') :
    ∀ k ∈ ctx'.embeddings.map Prod.fst,
      k ∈ ctx'.short_term_memory.map Message.message_id := by
  rw [Context.update_embeddings] at h
  split at h
  · cases h
  · injection h with h2
    subst h2
    intro k hk
    simp only [List.mem_map] at hk ⊢
    obtain ⟨p, hp, rfl⟩ := hk
    obtain ⟨hpmem, hpc⟩ := List.mem_filter.mp hp
    have hmem : p.1 ∈ ctx.short_term_memory.map Message.message_id := by
      simpa using hpc
    simpa using hmem

end Multichat

namespace Multichat

/-- Witness for the amended C9 theorem at a concrete call (the stale
`"gone"` key is pruned, leaving only the key of the message still in
memory). -/
theorem C9_pruned_witness :
    c9wctx.update_embeddings "mA" zeroVec 5 = .ok c9wctxAfter ∧
      ∀ k ∈ c9wctxAfter.embeddings.map Prod.fst,
        k ∈ c9wctxAfter.short_term_memory.map Message.message_id :=
  ⟨by set_option maxRecDepth 100000 in rfl,
   C9_pruned_after_update_embeddings c9wctx "mA" zeroVec 5 c9wctxAfter
     (by set_option maxRecDepth 100000 in rfl)⟩

/-- Version bumps by exactly one per update. -/
theorem iter_version (L : Nat) (us : List (PrefData × Option ℚ)) :
    ∀ m0 : PreferenceModel,
      (PreferenceModel.iterUpdates L m0 us).version = m0.version + us.length := by
  induction us with
  | nil => intro m0; simp [PreferenceModel.iterUpdates]
  | cons u rest ih =>
    intro m0
    have h := ih (m0.update_preference L u.1 u.2)
    simp only [PreferenceModel.iterUpdates, List.foldl_cons] at h ⊢
    rw [h]
    simp only [PreferenceModel.update_preference, List.length_cons]
    omega

theorem preSnaps_cons (L : Nat) (m0 : PreferenceModel)
    (u : PrefData × Option ℚ) (rest : List (PrefData × Option ℚ)) :
    PreferenceModel.preSnaps L m0 (u :: rest) =
      m0.snap ::
        PreferenceModel.preSnaps L (m0.update_preference L u.1 u.2) rest := by
  simp only [PreferenceModel.preSnaps, List.length_cons,
    List.range_succ_eq_map, List.map_cons, List.map_map]
  constructor

end Multichat

namespace Multichat

/-- After any run of updates, the history is the last-`L` suffix of the
stream of pre-update snapshots. -/
theorem iter_history (L : Nat) (hL : 1 ≤ L) :
    ∀ (us : List (PrefData × Option ℚ)) (m0 : PreferenceModel),
      m0.history.length ≤ L →
      (PreferenceModel.iterUpdates L m0 us).history =
        lastN L (m0.history ++ PreferenceModel.preSnaps L m0 us) := by
  intro us
  induction us with
  | nil =>
    intro m0 hlen
    simp only [PreferenceModel.iterUpdates, List.foldl_nil,
      PreferenceModel.preSnaps, List.length_nil, List.range_zero,
      List.map_nil, List.append_nil]
    exact (lastN_of_length_le hlen).symm
  | cons u rest ih =>
    intro m0 hlen
    have hstep : (m0.update_preference L u.1 u.2).history =
        lastN L (m0.history ++ [m0.snap]) := by
      simp only [PreferenceModel.update_preference]
      exact evict_snoc_eq_lastN L hL m0.history m0.snap hlen
    have hlen1 : (m0.update_preference L u.1 u.2).history.length ≤ L := by
      rw [hstep]; exact lastN_length_le _ _
    have h := ih (m0.update_preference L u.1 u.2) hlen1
    simp only [PreferenceModel.iterUpdates, List.foldl_cons] at h ⊢
    rw [h, hstep, lastN_lastN_append, preSnaps_cons]
    simp

end Multichat

namespace Multichat

/-- C2: after K > L calls to `PreferenceModel.update_preference` on a fresh
model, `len(history) = L` and `version = K` (one bump per call); each
surviving history entry is the pre-update snapshot of the update that
appended it — entry `j` snapshots the state just before update number
`K - L + j + 1` (equivalently, it carries `version = K - L + j`), eviction
having dropped the oldest `K - L` snapshots first. -/
theorem C2_history_bound_and_snapshots (L : Nat) (hL : 1 ≤ L)
    (d0 : PrefData) (us : List (PrefData × Option ℚ)) (hK : us.length > L) :
    (PreferenceModel.iterUpdates L (PreferenceModel.init d0) us).history.length
        = L ∧
    (PreferenceModel.iterUpdates L (PreferenceModel.init d0) us).version
        = us.length ∧
    ∀ j, j < L →
      (PreferenceModel.iterUpdates L (PreferenceModel.init d0) us).history[j]?
          = some (PreferenceModel.iterUpdates L (PreferenceModel.init d0)
              (us.take (us.length - L + j))).snap ∧
      (PreferenceModel.iterUpdates L (PreferenceModel.init d0)
          (us.take (us.length - L + j))).snap.version = us.length - L + j := by
  have hinit : (PreferenceModel.init d0).history.length ≤ L := by
    simp [PreferenceModel.init]
  have hhist := iter_history L hL us (PreferenceModel.init d0) hinit
  have hplen : (PreferenceModel.preSnaps L (PreferenceModel.init d0) us).length
      = us.length := by
    simp [PreferenceModel.preSnaps]
  have hnil : (PreferenceModel.init d0).history = [] := rfl
  rw [hnil, List.nil_append] at hhist
  refine ⟨?_, ?_, ?_⟩
  · rw [hhist, length_lastN, hplen]
    omega
  · rw [iter_version]
    simp [PreferenceModel.init]
  · intro j hj
    constructor
    · rw [hhist]
      simp only [lastN, hplen, List.getElem?_drop]
      have hlt : us.length - L + j < us.length := by omega
      simp only [PreferenceModel.preSnaps, List.getElem?_map,
        List.getElem?_range hlt, Option.map_some']
    · have hsv : (PreferenceModel.iterUpdates L (PreferenceModel.init d0)
          (us.take (us.length - L + j))).snap.version =
          (PreferenceModel.iterUpdates L (PreferenceModel.init d0)
            (us.take (us.length - L + j))).version := rfl
      rw [hsv, iter_version]
      simp only [PreferenceModel.init, List.length_take]
      omega

/-- Witness for C2 with history limit `L = 2` and `K = 3` updates. -/
theorem C2_history_bound_witness :
    1 ≤ 2 ∧ c2us.length > 2 ∧
      ((PreferenceModel.iterUpdates 2 (PreferenceModel.init []) c2us).history.length
          = 2 ∧
       (PreferenceModel.iterUpdates 2 (PreferenceModel.init []) c2us).version
          = c2us.length ∧
       ∀ j, j < 2 →
         (PreferenceModel.iterUpdates 2 (PreferenceModel.init []) c2us).history[j]?
             = some (PreferenceModel.iterUpdates 2 (PreferenceModel.init [])
                 (c2us.take (c2us.length - 2 + j))).snap ∧
         (PreferenceModel.iterUpdates 2 (PreferenceModel.init [])
             (c2us.take (c2us.length - 2 + j))).snap.version
             = c2us.length - 2 + j) :=
  ⟨by decide, by decide,
   C2_history_bound_and_snapshots 2 (by decide) [] c2us (by decide)⟩

end Multichat

namespace Multichat

/-- A message with a missing required field is rejected by
`Context.add_message` with a `ValueError`, before any mutation. -/
theorem add_message_invalid (ctx : Context) (msg : RawMessage) (now : Int)
    (hm : msg.valid = false) :
    ctx.add_message msg now = .error .valueError := by
  obtain ⟨mi, si, co, ts⟩ := msg
  cases mi <;> cases si <;> cases co <;> cases ts <;>
    simp_all [RawMessage.valid, Context.add_message]

end Multichat

namespace Multichat

theorem search_similar_length_le (stored : List StoredVec) (q : Vec)
    (chat_id : String) (limit : Nat) (th : ℚ) :
    (search_similar stored q chat_id limit th).length ≤ limit := by
  unfold search_similar
  split
  · simp
  · refine le_trans (List.length_filter_le _ _) ?_
    unfold milvusSearch
    exact List.length_take_le _ _

theorem search_similar_threshold {stored : List StoredVec} {q : Vec}
    {chat_id : String} {limit : Nat} {th : ℚ} {s : String × ℚ}
    (h : s ∈ search_similar stored q chat_id limit th) : th ≤ s.2 := by
  unfold search_similar at h
  split at h
  · cases h
  · exact of_decide_eq_true (List.mem_filter.mp h).2

theorem search_similar_pairwise (stored : List StoredVec) (q : Vec)
    (chat_id : String) (limit : Nat) (th : ℚ) :
    (search_similar stored q chat_id limit th).Pairwise hitGE := by
  unfold search_similar
  split
  · simp
  · apply List.Pairwise.filter
    unfold milvusSearch
    exact List.Pairwise.sublist (List.take_sublist _ _)
      (List.sorted_insertionSort hitGE _)

/-- The scores of the joined results form a sublist of the hit scores. -/
theorem join_scores_sublist (mem : List Message) (l : List (String × ℚ)) :
    ((l.filterMap (fun s =>
        (mem.find? (fun msg => msg.message_id == s.1)).map
          (fun msg => (msg, s.2)))).map Prod.snd).Sublist
      (l.map Prod.snd) := by
  induction l with
  | nil => simp
  | cons s rest ih =>
    cases h : mem.find? (fun msg => msg.message_id == s.1) with
    | none =>
      simp only [List.filterMap_cons, h, Option.map_none', List.map_cons]
      exact ih.cons _
    | some m =>
      simp only [List.filterMap_cons, h, Option.map_some', List.map_cons]
      exact ih.cons₂ _

theorem zipWith_zero_sum : ∀ (n : Nat) (l : List ℚ),
    (List.zipWith (· * ·) (List.replicate n (0 : ℚ)) l).sum = 0 := by
  intro n
  induction n with
  | zero => intro l; simp
  | succ k ih =>
    intro l
    cases l with
    | nil => simp
    | cons x t => simp [List.replicate_succ, ih t]

/-- The one stored vector of the retrieval scenario scores `0.5` against
the query embedding. -/
theorem c5_dot_eval : dotQ (c5embed "greeting") c5svec = 1/2 := by
  unfold c5embed c5qvec c5svec dotQ
  rw [List.zipWith_cons_cons, List.sum_cons, zipWith_zero_sum]
  norm_num

theorem c5_qlen : (c5embed "greeting").length = EMBEDDING_DIMENSION := by
  unfold c5embed c5qvec EMBEDDING_DIMENSION
  rw [List.length_cons, List.length_replicate]

/-- With threshold `0.9` and the single stored vector at similarity `0.5`,
the search — and hence the joined result — is empty. -/
theorem c5_scenario_empty :
    getRelevantContext c5embed c5stored c5mgr "c1" "greeting"
      ⟨none, some (9/10)⟩ 0 = [] := by
  have hsearch : search_similar c5stored (c5embed "greeting") "c1"
      MAX_RELEVANT_CONTEXTS (9/10) = [] := by
    unfold search_similar
    rw [if_neg (by rw [c5_qlen]; exact fun h => h rfl)]
    unfold milvusSearch
    have h1 : List.filter (fun s => s.chat_id == "c1") c5stored = c5stored :=
      rfl
    rw [h1]
    have h2 : c5stored.map
        (fun s => (s.message_id, dotQ (c5embed "greeting") s.vec)) =
        [("m1", (1/2 : ℚ))] := by
      simp only [c5stored, List.map_cons, List.map_nil]
      rw [c5_dot_eval]
    rw [h2]
    have h3 : (List.insertionSort hitGE
        [("m1", (1/2 : ℚ))]).take MAX_RELEVANT_CONTEXTS =
        [("m1", (1/2 : ℚ))] := rfl
    rw [h3]
    rw [List.filter_cons, if_neg (by simp only [decide_eq_true_eq]; norm_num)]
    rfl
  unfold getRelevantContext
  simp only [Option.getD_some, Option.getD_none]
  rw [hsearch]
  rfl

end Multichat

namespace Multichat

end Multichat

namespace Multichat

theorem pyMean_nonneg {l : List ℚ} (h : ∀ x ∈ l, 0 ≤ x) : 0 ≤ pyMean l := by
  unfold pyMean
  apply div_nonneg (List.sum_nonneg h)
  exact_mod_cast Nat.zero_le _

/-- The context-relevance score is never negative (each contributing
signal is a non-negative ratio; the no-signal default is `0.5`). -/
theorem contextRelevance_nonneg (context : CtxData) (it : RecItem)
    (gd : GroupDyn) : 0 ≤ contextRelevance context it gd := by
  unfold contextRelevance
  split_ifs
  · norm_num
  · apply pyMean_nonneg
    intro x hx
    rcases List.mem_append.mp hx with hx | hx
    · unfold timeScores at hx
      rcases hct : context.timestamp with _ | t <;>
        rcases hvp : it.valid_period_start with _ | s <;>
        simp only [hct, hvp] at hx
      · cases hx
      · cases hx
      · cases hx
      · rw [List.mem_singleton] at hx
        subst hx
        positivity
    · unfold groupScores at hx
      rcases hau : gd.active_users with _ | us <;> simp only [hau] at hx
      · cases hx
      · by_cases hus : us = []
        · simp only [hus, if_pos rfl] at hx
          cases hx
        · simp only [if_neg hus] at hx
          rw [List.mem_singleton] at hx
          subst hx
          positivity

end Multichat

namespace Multichat

/-- With `user_preferences = {}` every per-key feature match is 0 and the
diversity history is empty, so the score collapses to the clamped
`0.3·context + 0.1` blend. -/
theorem empty_prefs_score_eq (cos : List ℚ → List ℚ → ℚ)
    (context : CtxData) (it : RecItem) (gd : GroupDyn) :
    calculate_recommendation_score cos ⟨[], []⟩ context it gd =
      max 0 (min 1
        (contextRelevance context it gd * WEIGHT_CONTEXT +
          WEIGHT_DIVERSITY)) := by
  have hfeat : ∀ k, featureScore cos ⟨[], []⟩ it k = 0 := fun k => rfl
  have hpref : pyMean (it.keys.map (featureScore cos ⟨[], []⟩ it)) = 0 := by
    have hmap : it.keys.map (featureScore cos ⟨[], []⟩ it) =
        it.keys.map (fun _ => (0 : ℚ)) :=
      List.map_congr_left (fun k _ => hfeat k)
    rw [hmap]
    unfold pyMean
    rw [List.map_const']
    simp
  have hdiv : diversityScore it (⟨[], []⟩ : UserPrefs).history = 1 := rfl
  unfold calculate_recommendation_score
  rw [hpref, hdiv]
  ring_nf

/-- C4 counterexample: the claim "score == 0.0 for empty preferences" is
false — at `user_preferences = {}`, empty context, a one-feature item and
no group dynamics, the score is `0.25` (the context default `0.5` times
weight `0.3`, plus the diversity bonus `1.0` times weight `0.1`). -/
theorem C4_counterexample :
    calculate_recommendation_score c4cos c4prefs ⟨none⟩ c4item ⟨none⟩ = 1/4 ∧
      (1/4 : ℚ) ≠ 0 := by
  constructor
  · rw [show c4prefs = (⟨[], []⟩ : UserPrefs) from rfl,
      empty_prefs_score_eq c4cos ⟨none⟩ c4item ⟨none⟩]
    have hctx : contextRelevance ⟨none⟩ c4item ⟨none⟩ = 1/2 := rfl
    rw [hctx]
    unfold WEIGHT_CONTEXT WEIGHT_DIVERSITY
    norm_num
  · norm_num

/-- C4 amended: with `user_preferences = {}` (and an item with at least
one key, so the preference mean is well defined) the score equals
`clamp(0.3·context_relevance + 0.1)`, and in particular is always at
least `0.1` — never `0.0`. -/
theorem C4_empty_prefs_score (cos : List ℚ → List ℚ → ℚ)
    (context : CtxData) (it : RecItem) (gd : GroupDyn)
    (_hk : it.keys ≠ []) :
    calculate_recommendation_score cos ⟨[], []⟩ context it gd =
        max 0 (min 1
          (contextRelevance context it gd * WEIGHT_CONTEXT +
            WEIGHT_DIVERSITY)) ∧
      (1/10 : ℚ) ≤ calculate_recommendation_score cos ⟨[], []⟩ context it gd
      := by
  refine ⟨empty_prefs_score_eq cos context it gd, ?_⟩
  rw [empty_prefs_score_eq cos context it gd]
  have hc0 := contextRelevance_nonneg context it gd
  have h1 : (1/10 : ℚ) ≤ min 1
      (contextRelevance context it gd * WEIGHT_CONTEXT + WEIGHT_DIVERSITY) := by
    apply le_min
    · norm_num
    · unfold WEIGHT_CONTEXT WEIGHT_DIVERSITY
      linarith
  exact le_trans h1 (le_max_right 0 _)

/-- Witness for the amended C4 at a concrete item. -/
theorem C4_empty_prefs_score_witness :
    c4item.keys ≠ [] ∧
      (calculate_recommendation_score c4cos ⟨[], []⟩ ⟨none⟩ c4item ⟨none⟩ =
          max 0 (min 1
            (contextRelevance ⟨none⟩ c4item ⟨none⟩ * WEIGHT_CONTEXT +
              WEIGHT_DIVERSITY)) ∧
        (1/10 : ℚ) ≤ calculate_recommendation_score c4cos ⟨[], []⟩ ⟨none⟩
          c4item ⟨none⟩) :=
  ⟨by decide, C4_empty_prefs_score c4cos ⟨none⟩ c4item ⟨none⟩ (by decide)⟩

end Multichat

namespace Multichat

end Multichat

namespace Multichat

/-- No supported preference type passes the `PreferenceModel` validator:
the two vocabularies are disjoint. -/
theorem supported_not_in_preference_types :
    ∀ t ∈ SUPPORTED_PREFERENCE_TYPES, t ∉ PREFERENCE_TYPES := by decide

/-- Every `UserProfile.update_preference` call raises before any profile
mutation: a pydantic `ValidationError` at the `PreferenceModel`
construction when the type is supported, a `ValueError` otherwise. -/
theorem update_preference_always_raises (p : UserProfile) (t : String)
    (d : PrefData) (c : ℚ) (cd : PrefData) (now : Int) :
    p.update_preference t d c cd now =
      .error (if t ∈ SUPPORTED_PREFERENCE_TYPES then PyErr.validationError
        else PyErr.valueError) := by
  by_cases hts : t ∈ SUPPORTED_PREFERENCE_TYPES
  · have hc : PreferenceModel.construct t = .error .validationError := by
      unfold PreferenceModel.construct
      rw [if_neg (supported_not_in_preference_types t hts)]
    simp only [UserProfile.update_preference, if_pos hts, hc]
  · simp only [UserProfile.update_preference, if_neg hts]

/-- C3: `pattern_metrics[t].sample_count == len(interaction_history[t])`
holds after any call to `UserProfile.update_preference` — every such call
raises before mutating the profile (its first body statement constructs a
`PreferenceModel`, whose validator accepts only `PREFERENCE_TYPES`,
disjoint from `SUPPORTED_PREFERENCE_TYPES`; unsupported types fail the
explicit check), so the profile keeps the fresh `__init__` state, in
which both sides of the equality are 0 for every preference type. -/
theorem C3_sample_count_invariant :
    (∀ (p : UserProfile) (t : String) (d : PrefData) (c : ℚ) (cd : PrefData)
        (now : Int),
      p.update_preference t d c cd now =
        .error (if t ∈ SUPPORTED_PREFERENCE_TYPES then PyErr.validationError
          else PyErr.valueError)) ∧
    ∀ t, ((alook UserProfile.init.pattern_metrics t).map
        PatternMetrics.sample_count).getD 0 =
      ((alook UserProfile.init.interaction_history t).getD []).length := by
  constructor
  · exact update_preference_always_raises
  · intro t
    simp only [UserProfile.init, SUPPORTED_PREFERENCE_TYPES, List.map_cons,
      List.map_nil, alook]
    split_ifs <;> rfl

/-- Witness for C3 at one concrete (failing) call. -/
theorem C3_sample_count_witness :
    UserProfile.init.update_preference "content" [("theme", "dark")] (8/10)
        [] 0 =
      .error (if "content" ∈ SUPPORTED_PREFERENCE_TYPES
        then PyErr.validationError else PyErr.valueError) ∧
    ((alook UserProfile.init.pattern_metrics "content").map
        PatternMetrics.sample_count).getD 0 =
      ((alook UserProfile.init.interaction_history "content").getD []).length
      :=
  ⟨C3_sample_count_invariant.1 UserProfile.init "content" [("theme", "dark")]
     (8/10) [] 0,
   C3_sample_count_invariant.2 "content"⟩

/-- C10: the recording the claim describes never occurs — evaluated at a
confidence in `[0,1]` and a supported type on a fresh profile, the call
raises the pydantic `ValidationError` from the `PreferenceModel`
construction (`PREFERENCE_TYPES` is disjoint from
`SUPPORTED_PREFERENCE_TYPES`) before anything could be written to
`confidence_scores` or the interaction history. -/
theorem C10_recording_unreachable :
    (0 : ℚ) ≤ 8/10 ∧ (8/10 : ℚ) ≤ 1 ∧
      UserProfile.init.update_preference "content" [("theme", "dark")]
        (8/10) [] 0 = .error .validationError := by
  refine ⟨by norm_num, by norm_num, ?_⟩
  rw [update_preference_always_raises UserProfile.init "content"
    [("theme", "dark")] (8/10) [] 0]
  rfl

end Multichat

namespace Multichat

/-- The profile `get_preference_predictions` constructs inside the call is
fresh, so every learning-pattern entry it can find has an empty
temporal-pattern dict. -/
theorem init_learning_patterns_empty (t : String) (lp : LearnPatterns)
    (h : alook UserProfile.init.learning_patterns t = some lp) :
    lp.temporal_patterns = [] := by
  simp only [UserProfile.init, SUPPORTED_PREFERENCE_TYPES, List.map_cons,
    List.map_nil, alook] at h
  split_ifs at h <;> cases h <;> rfl

/-- The recompute path always returns zero predictions with confidence
`0.0` (and would raise `TypeError` at `pattern[1] >= MIN_SAMPLES_REQUIRED`
were the dict ever non-empty, as its values are nested dicts). -/
theorem recomputePredictions_eval (t : String) :
    recomputePredictions t = .ok (⟨[], 0⟩, false) := by
  rcases halp : alook UserProfile.init.learning_patterns t with _ | lp
  · simp [recomputePredictions, halp]
  · have h := init_learning_patterns_empty t lp halp
    simp [recomputePredictions, halp, h]

/-- C7: on a cache miss `get_preference_predictions` recomputes from the
`UserProfile(user_id=user_id)` the source constructs inside the call; the
fresh profile's temporal-pattern dict is empty for every preference type,
so the loop emits exactly one prediction per qualifying bucket — there
are none — and the overall confidence is the claim's no-qualifier default
`0.0`: the call returns `([], 0.0)` and does not serve from cache. -/
theorem C7_cache_miss_predictions (cached : Option PredCacheEntry)
    (mv t : String) (hmiss : predCacheMiss cached mv) :
    getPreferencePredictions cached mv t = .ok (⟨[], 0⟩, false) ∧
    ∀ lp, alook UserProfile.init.learning_patterns t = some lp →
      lp.temporal_patterns = [] := by
  constructor
  · cases cached with
    | none => exact recomputePredictions_eval t
    | some ce =>
      have hne := hmiss ce rfl
      simp only [getPreferencePredictions, if_neg hne]
      exact recomputePredictions_eval t
  · exact fun lp h => init_learning_patterns_empty t lp h

/-- Witness for C7: an empty cache is a miss, and the call returns zero
predictions with confidence `0.0`. -/
theorem C7_cache_miss_witness :
    predCacheMiss none "1.0.0" ∧
      (getPreferencePredictions none "1.0.0" "content" =
          .ok (⟨[], 0⟩, false) ∧
        ∀ lp, alook UserProfile.init.learning_patterns "content" = some lp →
          lp.temporal_patterns = []) :=
  ⟨(fun _ h => nomatch h),
   C7_cache_miss_predictions none "1.0.0" "content" (fun _ h => nomatch h)⟩

end Multichat
